import Mathlib

/-!
Shallow embedding of `src/mcp-servers/cad_verifier_mcp/server.py`
(cad-verifier-plugin): gear geometry formulas, the gear verifier, the
assembly-fit checker, the BOM pricer and the mathematical-spec sheet.

Python floats are modelled as exact rationals (ℚ); Python's `round(x, n)`
(round-half-to-even on the decimal value) is modelled by `roundTo`.
Issue messages built with f-strings are modelled as tagged values carrying
the data interpolated into the message; the Python code only renders these
to strings for presentation.
-/

/-- Round-half-to-even to the nearest integer, the tie-breaking rule of
Python's built-in `round`. -/
def roundHalfEven (x : ℚ) : ℤ :=
  let f := ⌊x⌋
  let r := x - f
  if r < 1/2 then f
  else if 1/2 < r then f + 1
  else if f % 2 = 0 then f else f + 1

/-- Model of Python's `round(x, d)` on exact values: round-half-to-even at
the d-th decimal place. -/
def roundTo (d : ℕ) (x : ℚ) : ℚ := (roundHalfEven (x * 10 ^ d) : ℚ) / 10 ^ d

/-! ## Gear math helpers (server.py lines 18-22) -/

/-- `def pitch_diameter(m, t): return m * t` -/
def pitch_diameter (m t : ℚ) : ℚ := m * t

/-- `def outer_diameter(m, t): return m * (t + 2)` -/
def outer_diameter (m t : ℚ) : ℚ := m * (t + 2)

/-- `def root_diameter(m, t): return m * (t - 2.5)` -/
def root_diameter (m t : ℚ) : ℚ := m * (t - 5/2)

/-- `def gear_ratio(driven, driver): return driven / driver`.
ℚ-division totalizes the `driver = 0` case to 0 where Python raises
`ZeroDivisionError`; no claim below evaluates it at `driver = 0`. -/
def gear_ratio (driven driver : ℚ) : ℚ := driven / driver

/-- `def center_distance(m, t1, t2): return m * (t1 + t2) / 2` -/
def center_distance (m t1 t2 : ℚ) : ℚ := m * (t1 + t2) / 2

/-! ## Gear verifier (server.py lines 25-39) -/

/-- The issue messages `verify_gear` can append, as tagged values carrying
the data the Python f-strings interpolate:
`"CRITICAL: Zero teeth detected - blank cylinder"`,
`"Teeth {t}<17 risks undercutting"`,
`"Module {m} is non-standard (ISO 54)"`,
`"Face-width/module ratio {ratio:.1f} outside ideal 8-12"`. -/
inductive GearIssue where
  | zeroTeeth : GearIssue
  | undercut (t : ℤ) : GearIssue
  | nonStandardModule (m : ℚ) : GearIssue
  | faceWidthRatio (r : ℚ) : GearIssue
deriving DecidableEq

/-- The result dict of `verify_gear`. -/
structure VerificationResult where
  passed : Bool
  teeth : ℤ
  pitch_diameter : ℚ
  outer_diameter : ℚ
  root_diameter : ℚ
  issues : List GearIssue
deriving DecidableEq

/-- `standard_modules = {0.5, 0.8, 1.0, 1.25, 1.5, 2.0, 2.5, 3.0, 4.0, 5.0, 6.0, 8.0, 10.0}` -/
def standard_modules : List ℚ :=
  [1/2, 4/5, 1, 5/4, 3/2, 2, 5/2, 3, 4, 5, 6, 8, 10]

/-- `def verify_gear(m, t, w)`, server.py lines 25-39.  The four `if`s
append to `issues` in order; `ratio = w / m if m else 0` guards the
division; `passed` is `len(issues) == 0`; the three diameters are returned
unrounded. -/
def verify_gear (m : ℚ) (t : ℤ) (w : ℚ) : VerificationResult :=
  let issues1 : List GearIssue := if t = 0 then [GearIssue.zeroTeeth] else []
  let issues2 := if 0 < t ∧ t < 17 then issues1 ++ [GearIssue.undercut t] else issues1
  let issues3 := if m ∉ standard_modules then issues2 ++ [GearIssue.nonStandardModule m] else issues2
  let ratio : ℚ := if m ≠ 0 then w / m else 0
  let issues4 := if ratio ≠ 0 ∧ ¬(8 ≤ ratio ∧ ratio ≤ 12) then issues3 ++ [GearIssue.faceWidthRatio ratio] else issues3
  { passed := issues4.length == 0
    teeth := t
    pitch_diameter := pitch_diameter m t
    outer_diameter := outer_diameter m t
    root_diameter := root_diameter m t
    issues := issues4 }

/-! ## Assembly fit checker (server.py lines 46-72) -/

/-- One entry of `_TOLERANCE_GRADES`: a lower and an upper bound.  In the
Python dict the press entry keys its bounds `min/max_interference_mm` and
the other two key theirs `min/max_clearance_mm`; each branch of
`verify_assembly_fit` reads only the keys its grade has, so a single pair
of fields represents every entry faithfully. -/
structure ToleranceGrade where
  min_bound : ℚ
  max_bound : ℚ
deriving DecidableEq

/-- `_TOLERANCE_GRADES.get(fit_type, _TOLERANCE_GRADES["clearance"])`:
the dict lookup of server.py lines 46-50 together with the
default-to-clearance fallback of line 57. -/
def _TOLERANCE_GRADES (fit_type : String) : ToleranceGrade :=
  if fit_type = "press" then { min_bound := 1/100, max_bound := 1/20 }
  else if fit_type = "transition" then { min_bound := -1/50, max_bound := 1/50 }
  else { min_bound := 1/50, max_bound := 1/10 }

/-- The issue messages `verify_assembly_fit` can append, as tagged values
carrying the data the Python f-strings interpolate:
`"Interference {i:.4f} mm below minimum {lo} mm"`,
`"Interference {i:.4f} mm exceeds maximum {hi} mm"`,
`"Clearance {d:.4f} mm below minimum {lo} mm"`,
`"Clearance {d:.4f} mm exceeds maximum {hi} mm"`. -/
inductive FitIssue where
  | interferenceBelowMin (v lo : ℚ) : FitIssue
  | interferenceAboveMax (v hi : ℚ) : FitIssue
  | clearanceBelowMin (v lo : ℚ) : FitIssue
  | clearanceAboveMax (v hi : ℚ) : FitIssue
deriving DecidableEq

/-- The result dict of `verify_assembly_fit`. -/
structure FitCheckResult where
  passed : Bool
  shaft_diameter : ℚ
  hole_diameter : ℚ
  fit_type : String
  actual_clearance_mm : ℚ
  issues : List FitIssue
deriving DecidableEq

/-- `def verify_assembly_fit(shaft_dia, hole_dia, fit_type="clearance")`,
server.py lines 53-72.  The result echoes the caller's `fit_type` string
verbatim and reports `actual_clearance_mm = round(hole - shaft, 4)`. -/
def verify_assembly_fit (shaft_dia hole_dia : ℚ) (fit_type : String := "clearance") : FitCheckResult :=
  let diff := hole_dia - shaft_dia
  let spec := _TOLERANCE_GRADES fit_type
  let issues : List FitIssue :=
    if fit_type = "press" then
      let interference := shaft_dia - hole_dia
      (if interference < spec.min_bound then [FitIssue.interferenceBelowMin interference spec.min_bound] else []) ++
      (if interference > spec.max_bound then [FitIssue.interferenceAboveMax interference spec.max_bound] else [])
    else
      (if diff < spec.min_bound then [FitIssue.clearanceBelowMin diff spec.min_bound] else []) ++
      (if diff > spec.max_bound then [FitIssue.clearanceAboveMax diff spec.max_bound] else [])
  { passed := issues.length == 0
    shaft_diameter := shaft_dia
    hole_diameter := hole_dia
    fit_type := fit_type
    actual_clearance_mm := roundTo 4 diff
    issues := issues }

/-! ## BOM / vendor pricing (server.py lines 79-116) -/

/-- One value of the `_VENDOR_CATALOG` dict. -/
structure CatalogEntry where
  unit : String
  price_usd : ℚ
  vendor : String
deriving DecidableEq

/-- `_VENDOR_CATALOG.get(mat)`: the dict of server.py lines 79-90, as a
lookup returning `none` for keys outside the ten entries. -/
def _VENDOR_CATALOG (key : String) : Option CatalogEntry :=
  if key = "steel_round_bar" then some { unit := "per_kg", price_usd := 5/2, vendor := "MetalsDepot" }
  else if key = "aluminum_6061" then some { unit := "per_kg", price_usd := 24/5, vendor := "MetalsDepot" }
  else if key = "brass_360" then some { unit := "per_kg", price_usd := 36/5, vendor := "MetalsDepot" }
  else if key = "nylon_6" then some { unit := "per_kg", price_usd := 5, vendor := "McMaster-Carr" }
  else if key = "bearing_608zz" then some { unit := "each", price_usd := 5/4, vendor := "McMaster-Carr" }
  else if key = "bearing_6001" then some { unit := "each", price_usd := 17/5, vendor := "McMaster-Carr" }
  else if key = "m3_socket_cap" then some { unit := "per_100", price_usd := 9/2, vendor := "McMaster-Carr" }
  else if key = "m5_socket_cap" then some { unit := "per_100", price_usd := 39/5, vendor := "McMaster-Carr" }
  else if key = "dowel_pin_3mm" then some { unit := "per_50", price_usd := 6, vendor := "McMaster-Carr" }
  else if key = "retaining_ring_8mm" then some { unit := "per_50", price_usd := 11/2, vendor := "McMaster-Carr" }
  else none

/-- One input dict of `generate_bom`: `{part, material, quantity?, weight_kg?}`.
The optional keys model Python's `item.get("quantity", 1)` and
`item.get("weight_kg", 1.0)` defaults. -/
structure BomItem where
  part : String
  material : String
  quantity : Option ℚ
  weight_kg : Option ℚ
deriving DecidableEq

/-- A resolved BOM line: `{**item, unit_price_usd, unit, line_total_usd, vendor}`. -/
structure ResolvedLine where
  item : BomItem
  unit_price_usd : ℚ
  unit : String
  line_total_usd : ℚ
  vendor : String
deriving DecidableEq

/-- An unresolved BOM line:
`{**item, unit_price: "N/A", line_total: "N/A", vendor: "unknown", note}`. -/
structure UnresolvedLine where
  item : BomItem
  unit_price : String
  line_total : String
  vendor : String
  note : String
deriving DecidableEq

/-- A BOM line is one of the two dict shapes `generate_bom` appends. -/
inductive BomLine where
  | resolved (r : ResolvedLine) : BomLine
  | unresolved (u : UnresolvedLine) : BomLine
deriving DecidableEq

/-- The result dict of `generate_bom`. -/
structure BomResult where
  bom : List BomLine
  total_usd : ℚ
deriving DecidableEq

/-- `mat = item.get("material", "").lower().replace(" ", "_").replace("-", "_")`
(server.py line 98), applied character-wise: lowercase, then spaces and
hyphens to underscores. -/
def normalize_material (s : String) : String :=
  String.mk (s.data.map (fun c => if c = ' ' ∨ c = '-' then '_' else c.toLower))

/-- The body of the `for item in items` loop of `generate_bom`
(server.py lines 98-115) for one item: the line it appends. -/
def bom_line (item : BomItem) : BomLine :=
  match _VENDOR_CATALOG (normalize_material item.material) with
  | none => BomLine.unresolved
      { item := item, unit_price := "N/A", line_total := "N/A", vendor := "unknown"
        note := "Material \x27" ++ item.material ++ "\x27 not in catalog" }
  | some catalog =>
      let qty := item.quantity.getD 1
      let weight := item.weight_kg.getD 1
      let line_total :=
        if catalog.unit = "per_kg" then roundTo 2 (catalog.price_usd * weight * qty)
        else if catalog.unit = "each" then roundTo 2 (catalog.price_usd * qty)
        else roundTo 2 (catalog.price_usd * qty)
      BomLine.resolved
        { item := item, unit_price_usd := catalog.price_usd, unit := catalog.unit
          line_total_usd := line_total, vendor := catalog.vendor }

/-- What one line adds to the running `total` of `generate_bom`: its
`line_total` when resolved (server.py line 112), nothing when unresolved
(the `continue` on line 103 skips the accumulation). -/
def line_contrib (l : BomLine) : ℚ :=
  match l with
  | BomLine.resolved r => r.line_total_usd
  | BomLine.unresolved _ => 0

/-- The loop state of `generate_bom`: `(bom_lines, total)` after one more
iteration of the `for` loop (server.py lines 97-115). -/
def bom_step (acc : List BomLine × ℚ) (item : BomItem) : List BomLine × ℚ :=
  match _VENDOR_CATALOG (normalize_material item.material) with
  | none => (acc.1 ++ [bom_line item], acc.2)
  | some _ => (acc.1 ++ [bom_line item], acc.2 + line_contrib (bom_line item))

/-- `def generate_bom(items)`, server.py lines 93-116: run the loop from
`bom_lines = []`, `total = 0.0`, then return
`{"bom": bom_lines, "total_usd": round(total, 2)}`. -/
def generate_bom (items : List BomItem) : BomResult :=
  let r := items.foldl bom_step ([], 0)
  { bom := r.1, total_usd := roundTo 2 r.2 }

/-! ## Mathematical specification sheet (server.py lines 123-150) -/

/-- The rational-valued fields of the dict returned by `math_spec`.
The three transcendental fields (`base_circle_diameter_mm` =
`round(pd*cos(radians(pa)), 4)`, `circular_pitch_mm` = `round(pi*m, 4)`,
`tooth_thickness_mm` = `round(pi*m/2, 4)`) take irrational values and are
outside this exact-arithmetic embedding. -/
structure MathSpec where
  module : ℚ
  num_teeth : ℚ
  pressure_angle_deg : ℚ
  pitch_diameter_mm : ℚ
  outer_diameter_mm : ℚ
  root_diameter_mm : ℚ
  addendum_mm : ℚ
  dedendum_mm : ℚ
  clearance_mm : ℚ
  face_width_mm : ℚ
  face_width_module_ratio : ℚ
deriving DecidableEq

/-- `def math_spec(module, num_teeth, face_width, pressure_angle_deg=20.0)`,
server.py lines 123-150 (rational-valued fields). -/
def math_spec (module num_teeth face_width : ℚ) (pressure_angle_deg : ℚ := 20) : MathSpec :=
  let pd := pitch_diameter module num_teeth
  let od := outer_diameter module num_teeth
  let rd := root_diameter module num_teeth
  { module := module
    num_teeth := num_teeth
    pressure_angle_deg := pressure_angle_deg
    pitch_diameter_mm := roundTo 4 pd
    outer_diameter_mm := roundTo 4 od
    root_diameter_mm := roundTo 4 rd
    addendum_mm := roundTo 4 module
    dedendum_mm := roundTo 4 (5/4 * module)
    clearance_mm := roundTo 4 (1/4 * module)
    face_width_mm := face_width
    face_width_module_ratio := roundTo 2 (if module ≠ 0 then face_width / module else 0) }

/-- The numeric payload of the `cad_calculate_gear_ratio` tool handler
(server.py lines 268-275): the ratio (presented as `f"{ratio:.3f}:1"`) and
`center_distance_mm`, returned unrounded. -/
structure GearRatioResult where
  ratio_value : ℚ
  center_distance_mm : ℚ
deriving DecidableEq

/-- `cad_calculate_gear_ratio` handler body: `ratio = gear_ratio(driven, driver)`
and `center_distance(m, driven, driver)` (server.py lines 268-275). -/
def cad_calculate_gear_ratio (driver_teeth driven_teeth : ℚ) (module : ℚ := 2) : GearRatioResult :=
  { ratio_value := gear_ratio driven_teeth driver_teeth
    center_distance_mm := center_distance module driven_teeth driver_teeth }

/-- The issue list of §4.2 of the spec, written from its words: the four
rules in their fixed order, each contributing its issue exactly when its
condition holds, the ratio of rule 4 taken as 0 when the module is 0 and
flagged when nonzero and outside the closed interval [8, 12]. -/
def gear_issues_spec (m : ℚ) (t : ℤ) (w : ℚ) : List GearIssue :=
  (if t = 0 then [GearIssue.zeroTeeth] else []) ++
  (if 0 < t ∧ t < 17 then [GearIssue.undercut t] else []) ++
  (if m ∉ ([0.5, 0.8, 1, 1.25, 1.5, 2, 2.5, 3, 4, 5, 6, 8, 10] : List ℚ) then [GearIssue.nonStandardModule m] else []) ++
  (let r : ℚ := if m = 0 then 0 else w / m
   if r ≠ 0 ∧ ¬(8 ≤ r ∧ r ≤ 12) then [GearIssue.faceWidthRatio r] else [])

/-- The IEEE-754 binary64 value of the source literal `10.05`, as an exact
rational: `10.05` lies in `[8, 16)` where the ulp is `2⁻⁴⁹`, and
`10.05 * 2⁴⁹ = 5657647031884185.6` rounds up, so the stored double is
`10.05 + 0.4 * 2⁻⁴⁹`. -/
def fl_10_05 : ℚ := 5657647031884186 / 2^49

/-- The IEEE-754 binary64 value of the source literal `0.05` (the press
grade's `max_interference_mm`), as an exact rational: `0.05` lies in
`[2⁻⁵, 2⁻⁴)` where the ulp is `2⁻⁵⁷`, and `0.05 * 2⁵⁷ = 7205759403792793.6`
rounds up, so the stored double is `0.05 + 0.4 * 2⁻⁵⁷`. -/
def fl_0_05 : ℚ := 7205759403792794 / 2^57

/-! ## Helper lemmas -/

lemma bom_step_spec (acc : List BomLine × ℚ) (item : BomItem) :
    bom_step acc item = (acc.1 ++ [bom_line item], acc.2 + line_contrib (bom_line item)) := by
  cases hc : _VENDOR_CATALOG (normalize_material item.material) <;>
    simp [bom_step, bom_line, line_contrib, hc]

lemma foldl_bom_step (items : List BomItem) (lines : List BomLine) (total : ℚ) :
    items.foldl bom_step (lines, total) =
      (lines ++ items.map bom_line,
       total + (items.map (fun it => line_contrib (bom_line it))).sum) := by
  induction items generalizing lines total with
  | nil => simp
  | cons it rest ih => simp [List.foldl_cons, bom_step_spec, ih, add_assoc]

lemma generate_bom_eq (items : List BomItem) :
    generate_bom items =
      { bom := items.map bom_line
        total_usd := roundTo 2 ((items.map (fun it => line_contrib (bom_line it))).sum) } := by
  simp [generate_bom, foldl_bom_step]

/-! ## Claims -/

/-- Claim C1: for every input, `verify_gear`'s result has `passed = true`
iff its `issues` list is empty, and likewise for `verify_assembly_fit`. -/
theorem passed_iff_issues_empty (m w : ℚ) (t : ℤ) (s h : ℚ) (ft : String) :
    ((verify_gear m t w).passed = true ↔ (verify_gear m t w).issues = []) ∧
    ((verify_assembly_fit s h ft).passed = true ↔ (verify_assembly_fit s h ft).issues = []) := by
  constructor
  · have hp : (verify_gear m t w).passed = ((verify_gear m t w).issues.length == 0) := rfl
    rw [hp]
    simp [List.length_eq_zero]
  · have hp : (verify_assembly_fit s h ft).passed =
        ((verify_assembly_fit s h ft).issues.length == 0) := rfl
    rw [hp]
    simp [List.length_eq_zero]

/-- Claim C2: `verify_gear` evaluates all four rules, appends issues in
the fixed order of §4.2 of the spec, and emits no other issue: its issue
list equals `gear_issues_spec`, the list written from the spec's words. -/
theorem verify_gear_issues_spec_eq (m : ℚ) (t : ℤ) (w : ℚ) :
    (verify_gear m t w).issues = gear_issues_spec m t w := by
  have hset : ([0.5, 0.8, 1, 1.25, 1.5, 2, 2.5, 3, 4, 5, 6, 8, 10] : List ℚ) = standard_modules := by
    norm_num [standard_modules]
  unfold verify_gear gear_issues_spec
  rw [hset]
  by_cases hm : m = 0 <;> simp [hm] <;> split_ifs <;> simp_all

/-- Claim C3: for all m, t the outer and pitch diameters differ by 2m and
the pitch and root diameters by 2.5m. -/
theorem diameter_relations (m t : ℚ) :
    outer_diameter m t - pitch_diameter m t = 2 * m ∧
    pitch_diameter m t - root_diameter m t = 5/2 * m := by
  constructor <;> simp only [outer_diameter, pitch_diameter, root_diameter] <;> ring

/-- Claim C5 (code bug): the Python call `verify_assembly_fit(10.05, 10.00,
"press")` works on binary64 doubles, where the literal 10.05 is stored as
`fl_10_05 = 10.05 + 0.4 * 2⁻⁴⁹` and the press upper bound 0.05 as
`fl_0_05 = 0.05 + 0.4 * 2⁻⁵⁷`.  The subtraction `fl(10.05) - 10.0` is
exact (the difference fits in 53 bits), and the resulting interference
exceeds both the stored bound `fl_0_05` and the ideal bound 1/20, so the
program emits the exceeds-maximum issue and returns `passed = False` where
the spec's boundary test expects `passed = True` with no issues:
evaluating the verifier at the exact value of the double input shows the
failure. -/
theorem press_fit_boundary_code_bug :
    fl_10_05 - 10 > fl_0_05 ∧
    fl_0_05 > 1/20 ∧
    (verify_assembly_fit fl_10_05 10 "press").passed = false ∧
    (verify_assembly_fit fl_10_05 10 "press").issues =
      [FitIssue.interferenceAboveMax (fl_10_05 - 10) (1/20)] := by
  refine ⟨by norm_num [fl_10_05, fl_0_05], by norm_num [fl_0_05], ?_, ?_⟩ <;>
    (simp [verify_assembly_fit, _TOLERANCE_GRADES, fl_10_05]; norm_num)

/-- Claim C9: every `verify_assembly_fit` result has at most one issue:
in each tolerance grade the lower bound is strictly below the upper bound,
so the below-minimum and above-maximum checks cannot both fire. -/
theorem fit_issues_at_most_one (s h : ℚ) (ft : String) :
    (verify_assembly_fit s h ft).issues.length ≤ 1 := by
  simp only [verify_assembly_fit, _TOLERANCE_GRADES]
  split_ifs <;> simp_all <;> linarith

/-- Claim C10: at module 0, `verify_gear` is total: the guarded ratio is
taken as 0, so no face-width-ratio issue is emitted, while the
non-standard-module issue fires (0 is not a standard module), hence
`passed = false`. -/
theorem verify_gear_zero_module (t : ℤ) (w : ℚ) :
    GearIssue.nonStandardModule 0 ∈ (verify_gear 0 t w).issues ∧
    (∀ r : ℚ, GearIssue.faceWidthRatio r ∉ (verify_gear 0 t w).issues) ∧
    (verify_gear 0 t w).passed = false := by
  unfold verify_gear
  norm_num [standard_modules]
  split_ifs <;> simp_all

/-- Claim C4 counterexample: `verify_gear` returns its pitch diameter and
`cad_calculate_gear_ratio` its center distance unrounded; at module
0.00001 both differ from their 4-decimal roundings. -/
theorem unrounded_outputs_counterexample :
    (verify_gear (1/100000) 1 1).pitch_diameter ≠ roundTo 4 (pitch_diameter (1/100000) 1) ∧
    (cad_calculate_gear_ratio 1 1 (1/100000)).center_distance_mm ≠
      roundTo 4 (center_distance (1/100000) 1 1) := by
  constructor <;>
    norm_num [verify_gear, cad_calculate_gear_ratio, pitch_diameter, center_distance,
      gear_ratio, roundTo, roundHalfEven]

/-- Claim C4 amended: the diameter, addendum, dedendum and clearance
fields of `math_spec` are rounded to 4 decimal places, but the three
diameters returned by `verify_gear` and the center distance returned by
the gear-ratio tool are returned unrounded (raw formula values). -/
theorem rounding_behavior_amended :
    (∀ (m : ℚ) (t : ℤ) (w : ℚ),
      (verify_gear m t w).pitch_diameter = pitch_diameter m t ∧
      (verify_gear m t w).outer_diameter = outer_diameter m t ∧
      (verify_gear m t w).root_diameter = root_diameter m t) ∧
    (∀ driver driven m : ℚ,
      (cad_calculate_gear_ratio driver driven m).center_distance_mm =
        center_distance m driven driver) ∧
    (∀ m t w pa : ℚ,
      (math_spec m t w pa).pitch_diameter_mm = roundTo 4 (pitch_diameter m t) ∧
      (math_spec m t w pa).outer_diameter_mm = roundTo 4 (outer_diameter m t) ∧
      (math_spec m t w pa).root_diameter_mm = roundTo 4 (root_diameter m t) ∧
      (math_spec m t w pa).addendum_mm = roundTo 4 m ∧
      (math_spec m t w pa).dedendum_mm = roundTo 4 (5/4 * m) ∧
      (math_spec m t w pa).clearance_mm = roundTo 4 (1/4 * m)) :=
  ⟨fun _ _ _ => ⟨rfl, rfl, rfl⟩, fun _ _ _ => rfl,
   fun _ _ _ _ => ⟨rfl, rfl, rfl, rfl, rfl, rfl⟩⟩

/-- Claim C6 counterexample: the `fit_type` field of the result echoes the
caller's string verbatim, so for the unknown fit type "sliding" it is not
a member of {press, transition, clearance}. -/
theorem fit_type_echo_counterexample :
    (verify_assembly_fit 10 10 "sliding").fit_type = "sliding" ∧
    "sliding" ∉ (["press", "transition", "clearance"] : List String) := by
  exact ⟨rfl, by decide⟩

/-- Claim C6 amended: an absent or unknown `fit_type` is checked against
the clearance bounds, and the `fit_type` field of the result is the
caller's string verbatim ("clearance" when absent), so it lies in
{press, transition, clearance} only when the caller's string does. -/
theorem unknown_fit_type_amended (s h : ℚ) (ft : String)
    (hft : ft ∉ (["press", "transition", "clearance"] : List String)) :
    (verify_assembly_fit s h ft).issues = (verify_assembly_fit s h "clearance").issues ∧
    (verify_assembly_fit s h ft).passed = (verify_assembly_fit s h "clearance").passed ∧
    (verify_assembly_fit s h ft).fit_type = ft ∧
    (verify_assembly_fit s h).fit_type = "clearance" := by
  simp only [List.mem_cons, List.mem_singleton, not_or] at hft
  obtain ⟨h1, h2, h3⟩ := hft
  refine ⟨?_, ?_, rfl, rfl⟩ <;> simp [verify_assembly_fit, _TOLERANCE_GRADES, h1, h2, h3]

/-- Witness for `unknown_fit_type_amended` at the concrete input
(10, 10.1, "sliding"). -/
theorem unknown_fit_type_amended_witness :
    (verify_assembly_fit 10 (101/10) "sliding").issues =
      (verify_assembly_fit 10 (101/10) "clearance").issues ∧
    (verify_assembly_fit 10 (101/10) "sliding").fit_type = "sliding" :=
  ⟨(unknown_fit_type_amended 10 (101/10) "sliding" (by decide)).1,
   (unknown_fit_type_amended 10 (101/10) "sliding" (by decide)).2.2.1⟩

/-- Claim C7: an item whose normalized material is not in the catalog
yields an unresolved line carrying the original item plus "N/A" prices,
vendor "unknown" and a note; it contributes nothing to the total, and
every item still yields exactly one line in input order. -/
theorem generate_bom_unresolved_line (items : List BomItem) (i : ℕ) (item : BomItem)
    (hget : items[i]? = some item)
    (hmat : _VENDOR_CATALOG (normalize_material item.material) = none) :
    (generate_bom items).bom.length = items.length ∧
    (generate_bom items).bom[i]? = some (BomLine.unresolved
      { item := item, unit_price := "N/A", line_total := "N/A", vendor := "unknown"
        note := "Material \x27" ++ item.material ++ "\x27 not in catalog" }) ∧
    line_contrib (bom_line item) = 0 ∧
    (generate_bom items).total_usd = roundTo 2 (((generate_bom items).bom.map line_contrib).sum) := by
  have hbl : bom_line item = BomLine.unresolved
      { item := item, unit_price := "N/A", line_total := "N/A", vendor := "unknown"
        note := "Material \x27" ++ item.material ++ "\x27 not in catalog" } := by
    simp [bom_line, hmat]
  refine ⟨by simp [generate_bom_eq], ?_, by simp [hbl, line_contrib], ?_⟩
  · simp [generate_bom_eq, List.getElem?_map, hget, hbl]
  · simp [generate_bom_eq, List.map_map]
    rfl

/-- Witness for `generate_bom_unresolved_line` at the concrete input
`[{part: "widget", material: "unobtainium"}]`. -/
theorem generate_bom_unresolved_line_witness :
    (generate_bom [{ part := "widget", material := "unobtainium", quantity := none, weight_kg := none }]).bom[0]? =
      some (BomLine.unresolved
        { item := { part := "widget", material := "unobtainium", quantity := none, weight_kg := none }
          unit_price := "N/A", line_total := "N/A", vendor := "unknown"
          note := "Material \x27unobtainium\x27 not in catalog" }) :=
  (generate_bom_unresolved_line
    [{ part := "widget", material := "unobtainium", quantity := none, weight_kg := none }]
    0 { part := "widget", material := "unobtainium", quantity := none, weight_kg := none }
    rfl (by decide)).2.1

/-- Claim C8: a catalog hit with unit "per_kg" prices the line at
`round(unitPrice * weightKg * quantity, 2)` with defaults 1 and 1.0, the
total is the 2-decimal rounding of the sum of resolved line totals, and
the concrete example `[{part: "shaft", material: "Steel Round Bar",
quantity: 2, weight_kg: 1.5}]` normalizes to "steel_round_bar" and yields
line total 7.50 and total 7.50. -/
theorem generate_bom_per_kg :
    (∀ (item : BomItem) (c : CatalogEntry),
      _VENDOR_CATALOG (normalize_material item.material) = some c →
      c.unit = "per_kg" →
      bom_line item = BomLine.resolved
        { item := item, unit_price_usd := c.price_usd, unit := c.unit
          line_total_usd := roundTo 2 (c.price_usd * item.weight_kg.getD 1 * item.quantity.getD 1)
          vendor := c.vendor }) ∧
    (∀ items : List BomItem,
      (generate_bom items).total_usd = roundTo 2 (((generate_bom items).bom.map line_contrib).sum)) ∧
    normalize_material "Steel Round Bar" = "steel_round_bar" ∧
    generate_bom [{ part := "shaft", material := "Steel Round Bar", quantity := some 2, weight_kg := some (3/2) }] =
      { bom := [BomLine.resolved
          { item := { part := "shaft", material := "Steel Round Bar", quantity := some 2, weight_kg := some (3/2) }
            unit_price_usd := 5/2, unit := "per_kg", line_total_usd := 15/2, vendor := "MetalsDepot" }]
        total_usd := 15/2 } := by
  refine ⟨?_, ?_, by decide, ?_⟩
  · intro item c hc hu
    simp [bom_line, hc, hu]
  · intro items
    simp [generate_bom_eq, List.map_map]
    rfl
  · have hmat : normalize_material "Steel Round Bar" = "steel_round_bar" := by decide
    simp [generate_bom, bom_step, bom_line, line_contrib, _VENDOR_CATALOG, hmat]
    norm_num [roundTo, roundHalfEven]

/-- Witness for `generate_bom_per_kg` at the concrete item
`{part: "shaft", material: "Steel Round Bar", quantity: 2, weight_kg: 1.5}`. -/
theorem generate_bom_per_kg_witness :
    bom_line { part := "shaft", material := "Steel Round Bar", quantity := some 2, weight_kg := some (3/2) } =
      BomLine.resolved
        { item := { part := "shaft", material := "Steel Round Bar", quantity := some 2, weight_kg := some (3/2) }
          unit_price_usd := 5/2, unit := "per_kg"
          line_total_usd := roundTo 2 (5/2 * ((some (3/2) : Option ℚ).getD 1) * ((some (2:ℚ) : Option ℚ).getD 1))
          vendor := "MetalsDepot" } :=
  generate_bom_per_kg.1
    { part := "shaft", material := "Steel Round Bar", quantity := some 2, weight_kg := some (3/2) }
    { unit := "per_kg", price_usd := 5/2, vendor := "MetalsDepot" }
    rfl rfl
